/-
Verification of the Safety-Aware Routing & Escalation Engine
(sources: pythonScript/dynamic_geofencing.py and
pythonScript/enhanced_route_optimizer.py).

The Python floats are modelled by real numbers; timestamps are real
numbers measured in minutes (the source converts second differences to
minutes before comparing against its minute-valued thresholds, so the
minute scale is used directly).  Boolean-returning Python checks whose
conditions compare real quantities are modelled as propositions.
-/

import Mathlib

open Real
open Classical

/-- `np.radians`: degrees to radians. -/
noncomputable def radians (x : ℝ) : ℝ := x * Real.pi / 180

/-- `np.degrees`: radians to degrees. -/
noncomputable def degrees (x : ℝ) : ℝ := x * 180 / Real.pi

/-- `np.arctan2 y x`: the two-argument arctangent with the usual C
convention (`arctan2 0 0 = 0`). -/
noncomputable def arctan2 (y x : ℝ) : ℝ :=
  if 0 < x then Real.arctan (y / x)
  else if x < 0 then
    (if 0 ≤ y then Real.arctan (y / x) + Real.pi else Real.arctan (y / x) - Real.pi)
  else
    (if 0 < y then Real.pi / 2 else if y < 0 then -(Real.pi / 2) else 0)

/-- Python's float `%` operator: `a - b * floor (a / b)`. -/
noncomputable def pymod (a b : ℝ) : ℝ := a - b * ⌊a / b⌋

/-- `_calculate_distance` (identical in `DynamicGeofencing` and
`EnhancedRouteOptimizer`): haversine great-circle distance in meters. -/
noncomputable def calculateDistance (lat1 lng1 lat2 lng2 : ℝ) : ℝ :=
  let R : ℝ := 6371000
  let dlat := radians (lat2 - lat1)
  let dlng := radians (lng2 - lng1)
  let a := Real.sin (dlat / 2) * Real.sin (dlat / 2) +
    Real.cos (radians lat1) * Real.cos (radians lat2) *
    Real.sin (dlng / 2) * Real.sin (dlng / 2)
  let c := 2 * arctan2 (Real.sqrt a) (Real.sqrt (1 - a))
  R * c

/-- `DynamicGeofencing._calculate_bearing`: initial bearing between two
points, normalized by `(bearing + 360) % 360`. -/
noncomputable def calculateBearing (lat1 lng1 lat2 lng2 : ℝ) : ℝ :=
  let dlng := radians (lng2 - lng1)
  let y := Real.sin dlng * Real.cos (radians lat2)
  let x := Real.cos (radians lat1) * Real.sin (radians lat2) -
    Real.sin (radians lat1) * Real.cos (radians lat2) * Real.cos dlng
  let bearing := degrees (arctan2 y x)
  pymod (bearing + 360) 360

lemma arctan2_nonneg {y x : ℝ} (hy : 0 ≤ y) (hx : 0 ≤ x) : 0 ≤ arctan2 y x := by
  unfold arctan2
  rcases lt_or_eq_of_le hx with hx1 | hx1
  · rw [if_pos hx1]
    have h0 : Real.arctan 0 ≤ Real.arctan (y / x) :=
      Real.arctan_strictMono.monotone (div_nonneg hy hx1.le)
    rwa [Real.arctan_zero] at h0
  · rw [if_neg (by rw [← hx1]; exact lt_irrefl 0), if_neg (by rw [← hx1]; exact lt_irrefl 0)]
    rcases lt_or_eq_of_le hy with hy1 | hy1
    · rw [if_pos hy1]
      positivity
    · rw [if_neg (by rw [← hy1]; exact lt_irrefl 0), if_neg (by rw [← hy1]; exact lt_irrefl 0)]

lemma arctan2_zero_one : arctan2 0 1 = 0 := by
  unfold arctan2
  rw [if_pos one_pos]
  simp [Real.arctan_zero]

/-- The haversine quantity `a` in `calculateDistance`, factored out so that
symmetry can be stated once. -/
noncomputable def haversineA (lat1 lng1 lat2 lng2 : ℝ) : ℝ :=
  Real.sin (radians (lat2 - lat1) / 2) * Real.sin (radians (lat2 - lat1) / 2) +
    Real.cos (radians lat1) * Real.cos (radians lat2) *
    Real.sin (radians (lng2 - lng1) / 2) * Real.sin (radians (lng2 - lng1) / 2)

lemma calculateDistance_eq (lat1 lng1 lat2 lng2 : ℝ) :
    calculateDistance lat1 lng1 lat2 lng2 =
      6371000 * (2 * arctan2 (Real.sqrt (haversineA lat1 lng1 lat2 lng2))
        (Real.sqrt (1 - haversineA lat1 lng1 lat2 lng2))) := by
  unfold calculateDistance haversineA
  norm_num

lemma haversineA_symm (lat1 lng1 lat2 lng2 : ℝ) :
    haversineA lat1 lng1 lat2 lng2 = haversineA lat2 lng2 lat1 lng1 := by
  unfold haversineA
  have h1 : radians (lat2 - lat1) = -(radians (lat1 - lat2)) := by unfold radians; ring
  have h2 : radians (lng2 - lng1) = -(radians (lng1 - lng2)) := by unfold radians; ring
  rw [h1, h2]
  simp only [neg_div, Real.sin_neg]
  ring

lemma haversineA_self (lat lng : ℝ) : haversineA lat lng lat lng = 0 := by
  unfold haversineA radians
  norm_num

lemma arctan2_of_pos_zero {y : ℝ} (hy : 0 < y) : arctan2 y 0 = Real.pi / 2 := by
  unfold arctan2
  rw [if_neg (lt_irrefl 0), if_neg (lt_irrefl 0), if_pos hy]

lemma arctan2_of_neg_zero {y : ℝ} (hy : y < 0) : arctan2 y 0 = -(Real.pi / 2) := by
  unfold arctan2
  rw [if_neg (lt_irrefl 0), if_neg (lt_irrefl 0), if_neg (asymm hy), if_pos hy]

lemma degrees_pi_div_two : degrees (Real.pi / 2) = 90 := by
  unfold degrees
  field_simp
  ring

lemma degrees_neg_pi_div_two : degrees (-(Real.pi / 2)) = -90 := by
  unfold degrees
  field_simp
  ring

lemma pymod_of_floor_eq {a b : ℝ} {z : ℤ} (h : ⌊a / b⌋ = z) :
    pymod a b = a - b * z := by
  unfold pymod
  rw [h]

lemma pymod_450_360 : pymod 450 360 = 90 := by
  have h : ⌊(450 : ℝ) / 360⌋ = 1 := by
    rw [Int.floor_eq_iff]
    norm_num
  rw [pymod_of_floor_eq h]
  norm_num

lemma pymod_270_360 : pymod 270 360 = 270 := by
  have h : ⌊(270 : ℝ) / 360⌋ = 0 := by
    rw [Int.floor_eq_iff]
    norm_num
  rw [pymod_of_floor_eq h]
  norm_num

/-- On the equator, a strictly eastward step of less than 180 degrees of
longitude has bearing 90. -/
lemma calculateBearing_east {lng1 lng2 : ℝ} (h1 : 0 < lng2 - lng1)
    (h2 : lng2 - lng1 < 180) : calculateBearing 0 lng1 0 lng2 = 90 := by
  unfold calculateBearing
  have hrad0 : radians 0 = 0 := by unfold radians; ring
  have hy : 0 < Real.sin (radians (lng2 - lng1)) := by
    apply Real.sin_pos_of_pos_of_lt_pi
    · unfold radians
      positivity
    · unfold radians
      have := Real.pi_pos
      nlinarith
  simp only [hrad0, Real.cos_zero, Real.sin_zero, mul_one, mul_zero, one_mul,
    zero_mul, sub_zero, zero_sub, neg_zero]
  rw [arctan2_of_pos_zero hy, degrees_pi_div_two]
  have : (90 : ℝ) + 360 = 450 := by norm_num
  rw [this, pymod_450_360]

/-- On the equator, a strictly westward step of less than 180 degrees of
longitude has bearing 270. -/
lemma calculateBearing_west {lng1 lng2 : ℝ} (h1 : lng2 - lng1 < 0)
    (h2 : -180 < lng2 - lng1) : calculateBearing 0 lng1 0 lng2 = 270 := by
  unfold calculateBearing
  have hrad0 : radians 0 = 0 := by unfold radians; ring
  have hy : Real.sin (radians (lng2 - lng1)) < 0 := by
    apply Real.sin_neg_of_neg_of_neg_pi_lt
    · unfold radians
      have := Real.pi_pos
      nlinarith
    · unfold radians
      have := Real.pi_pos
      nlinarith
  simp only [hrad0, Real.cos_zero, Real.sin_zero, mul_one, mul_zero, one_mul,
    zero_mul, sub_zero, zero_sub, neg_zero]
  rw [arctan2_of_neg_zero hy, degrees_neg_pi_div_two]
  have : (-90 : ℝ) + 360 = 270 := by norm_num
  rw [this, pymod_270_360]

/-- C8: the haversine `_calculate_distance` (present identically in both
`DynamicGeofencing` and `EnhancedRouteOptimizer`) is symmetric in its two
coordinates, always non-negative, and zero on equal coordinates. -/
theorem calculateDistance_symm_nonneg_refl :
    ∀ lat1 lng1 lat2 lng2 : ℝ,
      calculateDistance lat1 lng1 lat2 lng2 = calculateDistance lat2 lng2 lat1 lng1 ∧
      0 ≤ calculateDistance lat1 lng1 lat2 lng2 ∧
      calculateDistance lat1 lng1 lat1 lng1 = 0 := by
  intro lat1 lng1 lat2 lng2
  refine ⟨?_, ?_, ?_⟩
  · rw [calculateDistance_eq, calculateDistance_eq, haversineA_symm]
  · rw [calculateDistance_eq]
    have h := arctan2_nonneg (Real.sqrt_nonneg (haversineA lat1 lng1 lat2 lng2))
      (Real.sqrt_nonneg (1 - haversineA lat1 lng1 lat2 lng2))
    positivity
  · rw [calculateDistance_eq, haversineA_self]
    norm_num [arctan2_zero_one]

/-- `AlertPhase` enum. -/
inductive AlertPhase where
  | NORMAL
  | SOFT_CHECK
  | ESCALATION
  | EMERGENCY
deriving DecidableEq

/-- `LocationData` dataclass; the timestamp is a real number of minutes. -/
structure LocationData where
  lat : ℝ
  lng : ℝ
  timestamp : ℝ
  speed : ℝ
  accuracy : ℝ

/-- The mutable state of one `DynamicGeofencing` instance.  The safety
model collaborator is an optional scoring function `(lat, lng) → score`
(the geofencing code calls it without a timestamp). -/
structure GeofencingState where
  safetyModel : Option (ℝ → ℝ → ℝ)
  userLocationHistory : List LocationData
  plannedRoute : List (ℝ × ℝ)
  currentPhase : AlertPhase

/-- `self.anomaly_threshold = 5.0` (minutes). -/
def anomalyThreshold : ℝ := 5

/-- `self.speed_threshold = 1.0` (km/h, "stopped"). -/
def speedThreshold : ℝ := 1

/-- `self.safety_score_threshold = 30`. -/
def safetyScoreThreshold : ℝ := 30

/-- Score of a coordinate: the model if configured, else the default 50. -/
def predictScore (model : Option (ℝ → ℝ → ℝ)) (lat lng : ℝ) : ℝ :=
  match model with
  | some f => f lat lng
  | none => 50

/-- The loop of `_get_stopped_duration`, walking the reversed history:
`stopped_start` is set only while it is `None` (so it freezes at the first
stopped sample seen, the newest one), and the walk breaks at the first
non-stopped sample. -/
noncomputable def stoppedStartLoop : Option ℝ → List LocationData → Option ℝ
  | acc, [] => acc
  | acc, loc :: rest =>
    if loc.speed ≤ speedThreshold then
      stoppedStartLoop (match acc with | none => some loc.timestamp | some t => some t) rest
    else acc

/-- `_get_stopped_duration`: 0 for histories shorter than 2, else
`now - stopped_start` in minutes (0 when no stopped start was found). -/
noncomputable def getStoppedDuration (now : ℝ) (history : List LocationData) : ℝ :=
  if history.length < 2 then 0
  else
    match stoppedStartLoop none history.reverse with
    | some t => now - t
    | none => 0

/-- `_is_stopped_in_unsafe_area`: not faster than the stop threshold, a
predicted score below the unsafe ceiling, and a stopped duration above the
anomaly threshold. -/
def isStoppedInUnsafeArea (model : Option (ℝ → ℝ → ℝ)) (now : ℝ)
    (history : List LocationData) (cur : LocationData) : Prop :=
  cur.speed ≤ speedThreshold ∧
    predictScore model cur.lat cur.lng < safetyScoreThreshold ∧
    anomalyThreshold < getStoppedDuration now history

/-- The `min_distance` accumulation of `_has_deviated_from_route`,
starting from `float('inf')` (modelled by `⊤ : EReal`). -/
noncomputable def minDistanceToRoute (lat lng : ℝ) (route : List (ℝ × ℝ)) : EReal :=
  route.foldl (fun m p => min m ((calculateDistance lat lng p.1 p.2 : ℝ) : EReal)) ⊤

/-- `_has_deviated_from_route`: `False` with no planned route, else the
minimum distance to the route exceeds 200 meters. -/
def hasDeviatedFromRoute (route : List (ℝ × ℝ)) (cur : LocationData) : Prop :=
  route ≠ [] ∧ ((200 : ℝ) : EReal) < minDistanceToRoute cur.lat cur.lng route

/-- The bearing-difference normalization of `_has_unusual_movement_pattern`:
`abs` difference, folded into [0, 180]. -/
noncomputable def bearingDiff (prev curr : ℝ) : ℝ :=
  if 180 < |curr - prev| then 360 - |curr - prev| else |curr - prev|

/-- One significant direction change: the bearing difference of the two
segments (a→b) and (b→c) exceeds 90 degrees. -/
def significantChange (a b c : LocationData) : Prop :=
  90 < bearingDiff (calculateBearing a.lat a.lng b.lat b.lng)
    (calculateBearing b.lat b.lng c.lat c.lng)

/-- The direction-change count of `_has_unusual_movement_pattern` over a
sample window: one test per consecutive triple. -/
noncomputable def countSignificantChanges (l : List LocationData) : ℕ :=
  match l with
  | a :: b :: c :: rest =>
      (if significantChange a b c then 1 else 0) + countSignificantChanges (b :: c :: rest)
  | _ => 0
termination_by l.length

/-- `_has_unusual_movement_pattern`: `False` below 5 samples, else more
than 2 significant direction changes among the last 5 samples. -/
def hasUnusualMovementPattern (history : List LocationData) : Prop :=
  5 ≤ history.length ∧
    2 < countSignificantChanges (history.drop (history.length - 5))

/-- `_detect_anomalies`: `False` below 2 samples of history, else the
disjunction of the three checks (the source short-circuits in this
order). -/
def detectAnomalies (s : GeofencingState) (now : ℝ) (cur : LocationData) : Prop :=
  2 ≤ s.userLocationHistory.length ∧
    (isStoppedInUnsafeArea s.safetyModel now s.userLocationHistory cur ∨
      hasDeviatedFromRoute s.plannedRoute cur ∨
      hasUnusualMovementPattern s.userLocationHistory)

/-- `_user_responded_to_soft_check`: the source always returns `False`. -/
def userRespondedToSoftCheck : Bool := false

/-- `_user_responded_to_escalation`: the source always returns `False`. -/
def userRespondedToEscalation : Bool := false

/-- `_handle_anomaly`, restricted to its phase effect (the alert payloads
it prints are side output). -/
def handleAnomaly : AlertPhase → AlertPhase
  | .NORMAL => .SOFT_CHECK
  | .SOFT_CHECK => if userRespondedToSoftCheck then .SOFT_CHECK else .ESCALATION
  | .ESCALATION => if userRespondedToEscalation then .ESCALATION else .EMERGENCY
  | .EMERGENCY => .EMERGENCY

/-- The history cap of `update_user_location`: keep only the last 100. -/
def truncateHistory (h : List LocationData) : List LocationData :=
  if 100 < h.length then h.drop (h.length - 100) else h

/-- The state after appending the new `LocationData` in
`update_user_location` (timestamp is `datetime.now()`, the `now`
argument here). -/
def appendLocation (s : GeofencingState) (lat lng speed accuracy now : ℝ) :
    GeofencingState :=
  let cur : LocationData := ⟨lat, lng, now, speed, accuracy⟩
  { s with userLocationHistory := truncateHistory (s.userLocationHistory ++ [cur]) }

/-- The boolean result of `update_user_location`: anomalies are detected on
the post-append history. -/
def updateAnomaly (s : GeofencingState) (lat lng speed accuracy now : ℝ) : Prop :=
  detectAnomalies (appendLocation s lat lng speed accuracy now) now
    ⟨lat, lng, now, speed, accuracy⟩

/-- `update_user_location`: append, detect, and on an anomaly run
`_handle_anomaly` on the current phase. -/
noncomputable def updateUserLocation (s : GeofencingState)
    (lat lng speed accuracy now : ℝ) : GeofencingState :=
  let s1 := appendLocation s lat lng speed accuracy now
  if updateAnomaly s lat lng speed accuracy now then
    { s1 with currentPhase := handleAnomaly s1.currentPhase }
  else s1

/-- The dictionary returned by `get_current_safety_status` for a non-empty
history. -/
structure SafetyStatus where
  current_phase : AlertPhase
  safety_score : ℝ
  lat : ℝ
  lng : ℝ
  timestamp : ℝ
  speed : ℝ
  stopped_duration : ℝ

/-- `get_current_safety_status`: `none` models the `no_location_data`
answer on an empty history; otherwise the status of the latest sample. -/
noncomputable def getCurrentSafetyStatus (s : GeofencingState) (now : ℝ) :
    Option SafetyStatus :=
  match s.userLocationHistory.getLast? with
  | none => none
  | some cur => some
      { current_phase := s.currentPhase
        safety_score := predictScore s.safetyModel cur.lat cur.lng
        lat := cur.lat
        lng := cur.lng
        timestamp := cur.timestamp
        speed := cur.speed
        stopped_duration := getStoppedDuration now s.userLocationHistory }

/-- `RoutePoint` dataclass of the optimizer. -/
structure RoutePoint where
  lat : ℝ
  lng : ℝ
  safety_score : ℝ
  timestamp : ℝ
  estimated_travel_time : ℝ

/-- `OptimizedRoute` dataclass of the optimizer. -/
structure OptimizedRoute where
  points : List RoutePoint
  total_safety_score : ℝ
  total_travel_time : ℝ
  route_confidence : ℝ

/-- One step of a route geometry, with the fields the optimizer reads:
`start_location` and `duration.value` (seconds).  (`end_location` of the
mock geometry is never read downstream.) -/
structure RouteStep where
  start_lat : ℝ
  start_lng : ℝ
  duration : ℝ

/-- `_get_mock_routes`: a single straight-line geometry of 6 steps
(`num_waypoints = 5`, loop over `range(6)`) of 300 seconds each. -/
noncomputable def getMockRoutes (start_lat start_lng end_lat end_lng : ℝ) :
    List (List RouteStep) :=
  let lat_step := (end_lat - start_lat) / 5
  let lng_step := (end_lng - start_lng) / 5
  [(List.range 6).map (fun i => ⟨start_lat + lat_step * i, start_lng + lng_step * i, 300⟩)]

/-- Outcome of the directions-provider HTTP call in
`_get_route_alternatives`: a raised exception (`err`) or a decoded
response with its status flag (`statusOK` models `status == 'OK'`) and
route list. -/
inductive DirectionsOutcome where
  | err
  | ok (statusOK : Bool) (routes : List (List RouteStep))

/-- `_get_route_alternatives`: without an API key, or on an exception, or
on a non-OK status, the mock geometry; on an OK response the first
`max_alternatives` routes. -/
noncomputable def getRouteAlternatives (hasApiKey : Bool)
    (outcome : DirectionsOutcome) (start_lat start_lng end_lat end_lng : ℝ)
    (maxAlternatives : ℕ) : List (List RouteStep) :=
  if !hasApiKey then getMockRoutes start_lat start_lng end_lat end_lng
  else
    match outcome with
    | .err => getMockRoutes start_lat start_lng end_lat end_lng
    | .ok true routes => routes.take maxAlternatives
    | .ok false _ => getMockRoutes start_lat start_lng end_lat end_lng

/-- Point score in `_calculate_route_safety_scores`: the model at
`(lat, lng, current_time)` if configured, else the default 50. -/
def optimizerPredict (model : Option (ℝ → ℝ → ℝ → ℝ)) (lat lng t : ℝ) : ℝ :=
  match model with
  | some f => f lat lng t
  | none => 50

/-- The step loop of `_calculate_route_safety_scores`: walk the steps with
a running clock, scoring each step's start point and advancing the clock
by the step duration in minutes. -/
noncomputable def routePointsLoop (model : Option (ℝ → ℝ → ℝ → ℝ)) :
    ℝ → List RouteStep → List RoutePoint
  | _, [] => []
  | t, st :: rest =>
    let score := optimizerPredict model st.start_lat st.start_lng t
    let dur := st.duration / 60
    ⟨st.start_lat, st.start_lng, score, t, dur⟩ :: routePointsLoop model (t + dur) rest

/-- `np.mean`. -/
noncomputable def npMean (l : List ℝ) : ℝ := l.sum / l.length

/-- `np.std` (population standard deviation, numpy's default). -/
noncomputable def npStd (l : List ℝ) : ℝ :=
  Real.sqrt ((l.map (fun x => (x - npMean l) ^ 2)).sum / l.length)

/-- `_calculate_route_confidence`. -/
noncomputable def calculateRouteConfidence (safety_scores : List ℝ) : ℝ :=
  if safety_scores = [] then 0
  else
    let mean_score := npMean safety_scores
    let std_score := npStd safety_scores
    let consistency_factor := max 0 (1 - std_score / 50)
    let score_factor := mean_score / 100
    min 1 ((consistency_factor + score_factor) / 2)

/-- `_calculate_route_safety_scores`: the produced points, with the loop's
accumulated totals (each point stores its own score and duration, so the
accumulated totals are the sums over the produced points). -/
noncomputable def calculateRouteSafetyScores (model : Option (ℝ → ℝ → ℝ → ℝ))
    (departure : ℝ) (steps : List RouteStep) : OptimizedRoute :=
  let points := routePointsLoop model departure steps
  { points := points
    total_safety_score := (points.map RoutePoint.safety_score).sum
    total_travel_time := (points.map RoutePoint.estimated_travel_time).sum
    route_confidence := calculateRouteConfidence (points.map RoutePoint.safety_score) }

/-- The composite score of `_select_best_route`. -/
noncomputable def compositeScore (route : OptimizedRoute) : ℝ :=
  let normalized_safety := route.total_safety_score / (route.points.length * 100)
  let normalized_time := max 0 (1 - route.total_travel_time / 60)
  normalized_safety * 0.7 + normalized_time * 0.3

/-- `np.argmax` scan: keeps the current best index and value, replacing
them only on a strictly greater value (so ties keep the earlier index).
The first argument is the index of the list head. -/
noncomputable def npArgmaxLoop : ℕ → ℕ → ℝ → List ℝ → ℕ
  | _, bi, _, [] => bi
  | i, bi, bv, x :: rest =>
    if bv < x then npArgmaxLoop (i + 1) i x rest
    else npArgmaxLoop (i + 1) bi bv rest

/-- `np.argmax` over a list of floats (first index of the maximum). -/
noncomputable def npArgmax : List ℝ → ℕ
  | [] => 0
  | x :: rest => npArgmaxLoop 1 0 x rest

/-- `_select_best_route`: `None` on an empty candidate list, else the
candidate at the argmax of the composite scores. -/
noncomputable def selectBestRoute (routes : List OptimizedRoute) :
    Option OptimizedRoute :=
  if routes = [] then none
  else routes.get? (npArgmax (routes.map compositeScore))

/-- `_create_fallback_route`: two points with the default score 50, zero
and 30 minutes of travel time, total time 30, confidence 0.5. -/
noncomputable def createFallbackRoute (start_lat start_lng end_lat end_lng now : ℝ) :
    OptimizedRoute :=
  { points := [⟨start_lat, start_lng, 50, now, 0⟩, ⟨end_lat, end_lng, 50, now + 30, 30⟩]
    total_safety_score := 100
    total_travel_time := 30
    route_confidence := 0.5 }

/-- `optimize_route_with_safety_scoring`: fetch alternatives, fall back on
an empty list, else score every candidate and select the best.  (For a
non-empty candidate list `selectBestRoute` is always `some`, so the
`getD` default is never used.) -/
noncomputable def optimizeRouteWithSafetyScoring (model : Option (ℝ → ℝ → ℝ → ℝ))
    (hasApiKey : Bool) (outcome : DirectionsOutcome)
    (start_lat start_lng end_lat end_lng departure now : ℝ)
    (maxAlternatives : ℕ) : OptimizedRoute :=
  let alternatives := getRouteAlternatives hasApiKey outcome start_lat start_lng
    end_lat end_lng maxAlternatives
  if alternatives = [] then createFallbackRoute start_lat start_lng end_lat end_lng now
  else
    let optimized := alternatives.map (calculateRouteSafetyScores model departure)
    (selectBestRoute optimized).getD (createFallbackRoute start_lat start_lng end_lat end_lng now)

lemma stoppedStartLoop_some (t : ℝ) :
    ∀ l : List LocationData, stoppedStartLoop (some t) l = some t := by
  intro l
  induction l with
  | nil => rfl
  | cons loc rest ih =>
    unfold stoppedStartLoop
    split_ifs with h
    · exact ih
    · rfl

lemma stoppedStartLoop_cons (loc : LocationData) (rest : List LocationData) :
    stoppedStartLoop none (loc :: rest) =
      if loc.speed ≤ speedThreshold then some loc.timestamp else none := by
  unfold stoppedStartLoop
  split_ifs with h
  · exact stoppedStartLoop_some loc.timestamp rest
  · rfl

/-- `getStoppedDuration` only ever looks at the newest sample: the
`is None` guard in the source freezes `stopped_start` at the first
(newest) sample of the reversed walk. -/
lemma getStoppedDuration_eq (now : ℝ) (history : List LocationData)
    (last : LocationData) (hlast : history.getLast? = some last) :
    getStoppedDuration now history =
      if 2 ≤ history.length ∧ last.speed ≤ speedThreshold
      then now - last.timestamp else 0 := by
  unfold getStoppedDuration
  rcases hrev : history.reverse with _ | ⟨fst, restRev⟩
  · exfalso
    have hnil : history = [] := by
      have := congrArg List.reverse hrev
      simpa using this
    rw [hnil] at hlast
    simp at hlast
  · have hfst : fst = last := by
      have h1 : history.getLast? = some fst := by
        rw [List.getLast?_eq_head?_reverse, hrev]
        rfl
      rw [h1] at hlast
      exact Option.some_injective _ hlast
    subst hfst
    rw [stoppedStartLoop_cons]
    by_cases hlen : history.length < 2
    · rw [if_pos hlen]
      have h2 : ¬ (2 ≤ history.length ∧ fst.speed ≤ speedThreshold) := by
        intro hc
        omega
      rw [if_neg h2]
    · rw [if_neg hlen]
      by_cases hsp : fst.speed ≤ speedThreshold
      · rw [if_pos hsp, if_pos ⟨by omega, hsp⟩]
      · rw [if_neg hsp, if_neg (by intro hc; exact hsp hc.2)]

/-- The spec-side one-rung escalation ladder: each anomaly advances the
phase by exactly one step of NORMAL → SOFT_CHECK → ESCALATION → EMERGENCY,
and EMERGENCY is absorbing. -/
def nextPhase : AlertPhase → AlertPhase
  | .NORMAL => .SOFT_CHECK
  | .SOFT_CHECK => .ESCALATION
  | .ESCALATION => .EMERGENCY
  | .EMERGENCY => .EMERGENCY

lemma handleAnomaly_eq_nextPhase (ph : AlertPhase) : handleAnomaly ph = nextPhase ph := by
  cases ph <;> rfl

lemma updateUserLocation_currentPhase (s : GeofencingState)
    (lat lng speed accuracy now : ℝ) :
    (updateUserLocation s lat lng speed accuracy now).currentPhase =
      if updateAnomaly s lat lng speed accuracy now
      then handleAnomaly s.currentPhase else s.currentPhase := by
  unfold updateUserLocation
  split_ifs with h
  · rfl
  · rfl

/-- C1: with the acknowledgement stubs of the source (which always report
"no response"), an anomaly-positive `update_user_location` advances the
phase by exactly one rung of NORMAL → SOFT_CHECK → ESCALATION → EMERGENCY
(`nextPhase`, which by construction skips no phase and is the identity on
EMERGENCY), and an anomaly-negative update leaves the phase unchanged. -/
theorem updateUserLocation_phase_ladder :
    ∀ (s : GeofencingState) (lat lng speed accuracy now : ℝ),
      handleAnomaly s.currentPhase = nextPhase s.currentPhase ∧
      (updateAnomaly s lat lng speed accuracy now →
        (updateUserLocation s lat lng speed accuracy now).currentPhase =
          nextPhase s.currentPhase) ∧
      (¬ updateAnomaly s lat lng speed accuracy now →
        (updateUserLocation s lat lng speed accuracy now).currentPhase =
          s.currentPhase) := by
  intro s lat lng speed accuracy now
  refine ⟨handleAnomaly_eq_nextPhase _, ?_, ?_⟩
  · intro h
    rw [updateUserLocation_currentPhase, if_pos h, handleAnomaly_eq_nextPhase]
  · intro h
    rw [updateUserLocation_currentPhase, if_neg h]

/-- C10: an update on an empty history (the first update of a session)
leaves exactly one sample, reports no anomaly, and does not move the
phase, whatever the sample's coordinates, speed, accuracy or time. -/
theorem firstUpdate_no_anomaly :
    ∀ (s : GeofencingState) (lat lng speed accuracy now : ℝ),
      s.userLocationHistory = [] →
        ¬ updateAnomaly s lat lng speed accuracy now ∧
        (updateUserLocation s lat lng speed accuracy now).currentPhase =
          s.currentPhase ∧
        (updateUserLocation s lat lng speed accuracy now).userLocationHistory.length = 1 := by
  intro s lat lng speed accuracy now hnil
  have hanom : ¬ updateAnomaly s lat lng speed accuracy now := by
    unfold updateAnomaly detectAnomalies appendLocation truncateHistory
    rw [hnil]
    intro hc
    simp at hc
  refine ⟨hanom, ?_, ?_⟩
  · rw [updateUserLocation_currentPhase, if_neg hanom]
  · unfold updateUserLocation
    rw [if_neg hanom]
    unfold appendLocation truncateHistory
    rw [hnil]
    simp

/-- C10 witness: the very first update of a fresh session. -/
theorem firstUpdate_no_anomaly_witness :
    ¬ updateAnomaly ⟨none, [], [], .NORMAL⟩ 28.6 77.2 0 10 0 ∧
    (updateUserLocation ⟨none, [], [], .NORMAL⟩ 28.6 77.2 0 10 0).currentPhase =
      .NORMAL ∧
    (updateUserLocation ⟨none, [], [], .NORMAL⟩ 28.6 77.2 0 10 0).userLocationHistory.length = 1 := by
  have h := firstUpdate_no_anomaly ⟨none, [], [], .NORMAL⟩ 28.6 77.2 0 10 0 rfl
  exact h

/-- C9 (amended): the stopped-duration reported by
`get_current_safety_status` is `now - newest.timestamp` when the history
has at least two samples and the newest sample is stopped, and 0
otherwise (in particular it is 0 for a single-sample history even when
that sample is stopped, and it measures from the newest sample, not from
the start of the trailing stopped run). -/
theorem getCurrentSafetyStatus_stopped_duration :
    ∀ (s : GeofencingState) (now : ℝ),
      (getCurrentSafetyStatus s now).map SafetyStatus.stopped_duration =
        (s.userLocationHistory.getLast?).map (fun last =>
          if 2 ≤ s.userLocationHistory.length ∧ last.speed ≤ speedThreshold
          then now - last.timestamp else 0) := by
  intro s now
  rcases hlast : s.userLocationHistory.getLast? with _ | last
  · unfold getCurrentSafetyStatus
    rw [hlast]
    rfl
  · unfold getCurrentSafetyStatus
    rw [hlast]
    simp only [Option.map_some']
    rw [getStoppedDuration_eq now s.userLocationHistory last hlast]

/-- C9 counterexample: two stopped samples, the older one 6 minutes old,
the newer one current.  The claim predicts a reported stopped-duration of
6 minutes (time since the start of the trailing stopped run, with a
non-empty history whose newest sample is stopped); the code reports 0. -/
theorem getCurrentSafetyStatus_stopped_duration_counterexample :
    (getCurrentSafetyStatus ⟨none, [⟨0, 0, 0, 0, 10⟩, ⟨0, 0, 6, 0, 10⟩], [], .NORMAL⟩ 6).map
        SafetyStatus.stopped_duration = some 0 ∧
      (0 : ℝ) ≠ 6 := by
  constructor
  · unfold getCurrentSafetyStatus
    have hlast : ([⟨0, 0, 0, 0, 10⟩, ⟨0, 0, 6, 0, 10⟩] : List LocationData).getLast? =
        some ⟨0, 0, 6, 0, 10⟩ := rfl
    rw [hlast]
    simp only [Option.map_some']
    have hdur : getStoppedDuration 6 [⟨0, 0, 0, 0, 10⟩, ⟨0, 0, 6, 0, 10⟩] = 0 := by
      rw [getStoppedDuration_eq 6 [⟨0, 0, 0, 0, 10⟩, ⟨0, 0, 6, 0, 10⟩] ⟨0, 0, 6, 0, 10⟩ rfl]
      rw [if_pos ⟨by norm_num, by norm_num [speedThreshold]⟩]
      norm_num
    simp only [hdur]
  · norm_num

/-- C2: evaluation of the code at the spec's own test input.  The
detector state holds one stopped sample six minutes old with a predictor
reporting score 10; a new stopped update arrives at the current time.
The spec requires anomaly = true (stopped run of 6 minutes in an unsafe
area); the code reports no anomaly, because `_get_stopped_duration`
measures from the just-appended newest sample (duration 0). -/
theorem unsafeStop_code_eval :
    ¬ updateAnomaly ⟨some (fun _ _ => 10), [⟨0, 0, 0, 0, 10⟩], [], .NORMAL⟩ 0 0 0 10 6 := by
  intro h
  unfold updateAnomaly detectAnomalies appendLocation truncateHistory at h
  simp only [List.length_append, List.length_cons, List.length_nil] at h
  rw [if_neg (by norm_num)] at h
  rcases h with ⟨-, h | h | h⟩
  · rcases h with ⟨-, -, hdur⟩
    simp only [List.cons_append, List.nil_append] at hdur
    rw [getStoppedDuration_eq 6 [⟨0, 0, 0, 0, 10⟩, ⟨0, 0, 6, 0, 10⟩] ⟨0, 0, 6, 0, 10⟩ rfl] at hdur
    rw [if_pos ⟨by norm_num, by norm_num [speedThreshold]⟩] at hdur
    norm_num [anomalyThreshold] at hdur
  · exact h.1 rfl
  · have hlen := h.1
    norm_num at hlen

lemma lt_foldl_min {α : Type} (f : α → EReal) (c : EReal) :
    ∀ (l : List α) (m : EReal),
      c < l.foldl (fun acc x => min acc (f x)) m ↔ (c < m ∧ ∀ x ∈ l, c < f x) := by
  intro l
  induction l with
  | nil =>
    intro m
    simp
  | cons x rest ih =>
    intro m
    rw [List.foldl_cons, ih]
    constructor
    · rintro ⟨h1, h2⟩
      rw [lt_min_iff] at h1
      refine ⟨h1.1, ?_⟩
      intro z hz
      rcases List.mem_cons.mp hz with hz1 | hz2
      · rw [hz1]
        exact h1.2
      · exact h2 z hz2
    · rintro ⟨h1, h2⟩
      refine ⟨lt_min_iff.mpr ⟨h1, h2 x (List.mem_cons_self x rest)⟩, ?_⟩
      intro z hz
      exact h2 z (List.mem_cons_of_mem x hz)

/-- C3: `_has_deviated_from_route` holds exactly when a planned route is
set and every planned-route coordinate is more than 200 meters away from
the current coordinate (equivalently, the minimum distance to the route
exceeds 200 meters); with no planned route the check is skipped and is
never an anomaly. -/
theorem hasDeviatedFromRoute_iff :
    ∀ (route : List (ℝ × ℝ)) (cur : LocationData),
      hasDeviatedFromRoute route cur ↔
        (route ≠ [] ∧ ∀ p ∈ route, (200 : ℝ) < calculateDistance cur.lat cur.lng p.1 p.2) := by
  intro route cur
  unfold hasDeviatedFromRoute minDistanceToRoute
  constructor
  · rintro ⟨hne, hlt⟩
    rw [lt_foldl_min] at hlt
    exact ⟨hne, fun p hp => EReal.coe_lt_coe_iff.mp (hlt.2 p hp)⟩
  · rintro ⟨hne, hall⟩
    refine ⟨hne, ?_⟩
    rw [lt_foldl_min]
    exact ⟨EReal.coe_lt_top 200, fun p hp => EReal.coe_lt_coe_iff.mpr (hall p hp)⟩

lemma bearingDiff_90_270 : bearingDiff 90 270 = 180 := by
  unfold bearingDiff
  have habs : |(270 : ℝ) - 90| = 180 := by
    rw [abs_of_nonneg] <;> norm_num
  rw [habs, if_neg (lt_irrefl (180 : ℝ))]

lemma bearingDiff_270_90 : bearingDiff 270 90 = 180 := by
  unfold bearingDiff
  have habs : |(90 : ℝ) - 270| = 180 := by
    rw [abs_of_nonpos] <;> norm_num
  rw [habs, if_neg (lt_irrefl (180 : ℝ))]

lemma bearingDiff_90_90 : bearingDiff 90 90 = 0 := by
  unfold bearingDiff
  have habs : |(90 : ℝ) - 90| = 0 := by
    norm_num
  rw [habs, if_neg (by norm_num : ¬ (180 : ℝ) < 0)]

/-- An equatorial eastward step followed by a westward step is a
significant direction change (bearing 90 then 270). -/
lemma significantChange_east_west (p q r : LocationData)
    (hp : p.lat = 0) (hq : q.lat = 0) (hr : r.lat = 0)
    (h1 : 0 < q.lng - p.lng) (h2 : q.lng - p.lng < 180)
    (h3 : r.lng - q.lng < 0) (h4 : -180 < r.lng - q.lng) :
    significantChange p q r := by
  unfold significantChange
  rw [hp, hq, hr, calculateBearing_east h1 h2, calculateBearing_west h3 h4,
    bearingDiff_90_270]
  norm_num

/-- An equatorial westward step followed by an eastward step is a
significant direction change (bearing 270 then 90). -/
lemma significantChange_west_east (p q r : LocationData)
    (hp : p.lat = 0) (hq : q.lat = 0) (hr : r.lat = 0)
    (h1 : q.lng - p.lng < 0) (h2 : -180 < q.lng - p.lng)
    (h3 : 0 < r.lng - q.lng) (h4 : r.lng - q.lng < 180) :
    significantChange p q r := by
  unfold significantChange
  rw [hp, hq, hr, calculateBearing_west h1 h2, calculateBearing_east h3 h4,
    bearingDiff_270_90]
  norm_num

/-- Two successive equatorial eastward steps are not a significant
direction change (bearing 90 twice). -/
lemma not_significantChange_east_east (p q r : LocationData)
    (hp : p.lat = 0) (hq : q.lat = 0) (hr : r.lat = 0)
    (h1 : 0 < q.lng - p.lng) (h2 : q.lng - p.lng < 180)
    (h3 : 0 < r.lng - q.lng) (h4 : r.lng - q.lng < 180) :
    ¬ significantChange p q r := by
  unfold significantChange
  rw [hp, hq, hr, calculateBearing_east h1 h2, calculateBearing_east h3 h4,
    bearingDiff_90_90]
  norm_num

lemma countSignificantChanges_five (a b c d e : LocationData) :
    countSignificantChanges [a, b, c, d, e] =
      (if significantChange a b c then 1 else 0) +
        ((if significantChange b c d then 1 else 0) +
          ((if significantChange c d e then 1 else 0) + 0)) := by
  rw [countSignificantChanges, countSignificantChanges, countSignificantChanges,
    countSignificantChanges]
  intro x y z rest hcontra
  simp at hcontra

lemma two_lt_countSignificantChanges_iff (a b c d e : LocationData) :
    2 < countSignificantChanges [a, b, c, d, e] ↔
      (significantChange a b c ∧ significantChange b c d ∧ significantChange c d e) := by
  rw [countSignificantChanges_five]
  by_cases h1 : significantChange a b c <;>
    by_cases h2 : significantChange b c d <;>
      by_cases h3 : significantChange c d e <;>
        simp [h1, h2, h3]

/-- C4: with at least 5 samples (history = any prefix followed by the last
five samples a b c d e), `_has_unusual_movement_pattern` holds exactly
when more than 2 of the 3 consecutive triples of the last five samples
show a bearing change above 90° — with exactly 3 triples this means all
three; with fewer than 5 samples the check never fires. -/
theorem hasUnusualMovementPattern_iff :
    ∀ (pre : List LocationData) (a b c d e : LocationData) (h : List LocationData),
      (hasUnusualMovementPattern (pre ++ [a, b, c, d, e]) ↔
        (significantChange a b c ∧ significantChange b c d ∧ significantChange c d e)) ∧
      (h.length < 5 → ¬ hasUnusualMovementPattern h) := by
  intro pre a b c d e h
  constructor
  · unfold hasUnusualMovementPattern
    have hlen : (pre ++ [a, b, c, d, e]).length = pre.length + 5 := by
      simp
    have hsub : pre.length + 5 - 5 = pre.length := by
      omega
    rw [hlen, hsub, List.drop_left pre [a, b, c, d, e],
      two_lt_countSignificantChanges_iff]
    constructor
    · rintro ⟨-, hc⟩
      exact hc
    · intro hc
      exact ⟨by omega, hc⟩
  · intro hlt hc
    have := hc.1
    omega

/-- The erratic five-sample pattern used as a concrete witness: equatorial
samples alternating east and west, each step changing direction by 180°. -/
def eqSample (lng t : ℝ) : LocationData := ⟨0, lng, t, 10, 10⟩

lemma hasUnusual_alt_example :
    hasUnusualMovementPattern
      [eqSample 0 0, eqSample 0.01 1, eqSample 0 2, eqSample 0.01 3, eqSample 0 4] := by
  unfold hasUnusualMovementPattern
  refine ⟨by norm_num, ?_⟩
  have hdrop : ([eqSample 0 0, eqSample 0.01 1, eqSample 0 2, eqSample 0.01 3,
      eqSample 0 4] : List LocationData).drop
        (([eqSample 0 0, eqSample 0.01 1, eqSample 0 2, eqSample 0.01 3,
          eqSample 0 4] : List LocationData).length - 5) =
      [eqSample 0 0, eqSample 0.01 1, eqSample 0 2, eqSample 0.01 3, eqSample 0 4] := by
    simp
  rw [hdrop, two_lt_countSignificantChanges_iff]
  refine ⟨?_, ?_, ?_⟩
  · exact significantChange_east_west _ _ _ rfl rfl rfl (by norm_num [eqSample])
      (by norm_num [eqSample]) (by norm_num [eqSample]) (by norm_num [eqSample])
  · exact significantChange_west_east _ _ _ rfl rfl rfl (by norm_num [eqSample])
      (by norm_num [eqSample]) (by norm_num [eqSample]) (by norm_num [eqSample])
  · exact significantChange_east_west _ _ _ rfl rfl rfl (by norm_num [eqSample])
      (by norm_num [eqSample]) (by norm_num [eqSample]) (by norm_num [eqSample])

/-- C4 witness: five alternating equatorial samples (each step turning by
180°) are erratic; five collinear eastward samples are not. -/
theorem hasUnusualMovementPattern_iff_witness :
    hasUnusualMovementPattern
      [eqSample 0 0, eqSample 0.01 1, eqSample 0 2, eqSample 0.01 3, eqSample 0 4] ∧
    ¬ hasUnusualMovementPattern
      [eqSample 0 0, eqSample 0.01 1, eqSample 0.02 2, eqSample 0.03 3, eqSample 0.04 4] := by
  constructor
  · apply ((hasUnusualMovementPattern_iff [] (eqSample 0 0) (eqSample 0.01 1)
      (eqSample 0 2) (eqSample 0.01 3) (eqSample 0 4) []).1).mpr
    refine ⟨?_, ?_, ?_⟩
    · exact significantChange_east_west _ _ _ rfl rfl rfl (by norm_num [eqSample])
        (by norm_num [eqSample]) (by norm_num [eqSample]) (by norm_num [eqSample])
    · exact significantChange_west_east _ _ _ rfl rfl rfl (by norm_num [eqSample])
        (by norm_num [eqSample]) (by norm_num [eqSample]) (by norm_num [eqSample])
    · exact significantChange_east_west _ _ _ rfl rfl rfl (by norm_num [eqSample])
        (by norm_num [eqSample]) (by norm_num [eqSample]) (by norm_num [eqSample])
  · intro hc
    have hall := ((hasUnusualMovementPattern_iff [] (eqSample 0 0) (eqSample 0.01 1)
      (eqSample 0.02 2) (eqSample 0.03 3) (eqSample 0.04 4) []).1).mp hc
    exact (not_significantChange_east_east _ _ _ rfl rfl rfl (by norm_num [eqSample])
      (by norm_num [eqSample]) (by norm_num [eqSample]) (by norm_num [eqSample])) hall.1

/-- C1 witness: an anomaly-positive update (the fifth sample of the
alternating equatorial pattern, which makes the erratic check fire) moves
NORMAL one rung up to SOFT_CHECK; an anomaly-negative update (the first
update of a session) leaves the phase at ESCALATION. -/
theorem updateUserLocation_phase_ladder_witness :
    updateAnomaly ⟨none, [eqSample 0 0, eqSample 0.01 1, eqSample 0 2, eqSample 0.01 3],
        [], .NORMAL⟩ 0 0 10 10 4 ∧
    (updateUserLocation ⟨none, [eqSample 0 0, eqSample 0.01 1, eqSample 0 2, eqSample 0.01 3],
        [], .NORMAL⟩ 0 0 10 10 4).currentPhase = .SOFT_CHECK ∧
    ¬ updateAnomaly ⟨none, [], [], .ESCALATION⟩ 1 1 0 10 0 ∧
    (updateUserLocation ⟨none, [], [], .ESCALATION⟩ 1 1 0 10 0).currentPhase = .ESCALATION := by
  have hanom : updateAnomaly ⟨none, [eqSample 0 0, eqSample 0.01 1, eqSample 0 2,
      eqSample 0.01 3], [], .NORMAL⟩ 0 0 10 10 4 := by
    show detectAnomalies ⟨none, [eqSample 0 0, eqSample 0.01 1, eqSample 0 2,
      eqSample 0.01 3, eqSample 0 4], [], .NORMAL⟩ 4 (eqSample 0 4)
    exact ⟨by simp, Or.inr (Or.inr hasUnusual_alt_example)⟩
  have hneg : ¬ updateAnomaly ⟨none, [], [], .ESCALATION⟩ 1 1 0 10 0 := by
    show ¬ detectAnomalies ⟨none, [⟨1, 1, 0, 0, 10⟩], [], .ESCALATION⟩ 0 ⟨1, 1, 0, 0, 10⟩
    intro hc
    have := hc.1
    simp at this
  refine ⟨hanom, ?_, hneg, ?_⟩
  · exact (updateUserLocation_phase_ladder ⟨none, [eqSample 0 0, eqSample 0.01 1,
      eqSample 0 2, eqSample 0.01 3], [], .NORMAL⟩ 0 0 10 10 4).2.1 hanom
  · exact (updateUserLocation_phase_ladder ⟨none, [], [], .ESCALATION⟩ 1 1 0 10 0).2.2 hneg

lemma listGetMap {α β : Type} (f : α → β) (l : List α) (j : ℕ) (hj : j < l.length)
    (hj2 : j < (l.map f).length) : (l.map f).get ⟨j, hj2⟩ = f (l.get ⟨j, hj⟩) := by
  simp [List.get_eq_getElem, List.getElem_map]

/-- The `np.argmax` scan invariant: either no element beats the incoming
best value (and the incoming best index is returned), or the first
element strictly above the incoming best value that is not later beaten
is returned (its offset shifted by the index of the head). -/
lemma npArgmaxLoop_spec :
    ∀ (l : List ℝ) (i bi : ℕ) (bv : ℝ),
      (npArgmaxLoop i bi bv l = bi ∧ ∀ k (hk : k < l.length), l.get ⟨k, hk⟩ ≤ bv) ∨
      (∃ k, ∃ hk : k < l.length, npArgmaxLoop i bi bv l = i + k ∧ bv < l.get ⟨k, hk⟩ ∧
        (∀ j (hj : j < l.length), l.get ⟨j, hj⟩ ≤ l.get ⟨k, hk⟩) ∧
        (∀ j (hj : j < l.length), j < k → l.get ⟨j, hj⟩ < l.get ⟨k, hk⟩)) := by
  intro l
  induction l with
  | nil =>
    intro i bi bv
    left
    refine ⟨rfl, ?_⟩
    intro k hk
    exact absurd hk (by simp)
  | cons x rest ih =>
    intro i bi bv
    by_cases hx : bv < x
    · have heq : npArgmaxLoop i bi bv (x :: rest) = npArgmaxLoop (i + 1) i x rest := by
        show (if bv < x then npArgmaxLoop (i + 1) i x rest
          else npArgmaxLoop (i + 1) bi bv rest) = npArgmaxLoop (i + 1) i x rest
        rw [if_pos hx]
      rcases ih (i + 1) i x with ⟨h1, h2⟩ | ⟨k, hk, h1, h2, h3, h4⟩
      · right
        refine ⟨0, by simp, ?_, hx, ?_, ?_⟩
        · rw [heq, h1]
          omega
        · intro j hj
          cases j with
          | zero => exact le_refl _
          | succ j2 => exact h2 j2 (by simpa using hj)
        · intro j hj hj0
          exact absurd hj0 (by omega)
      · right
        refine ⟨k + 1, by simpa using hk, ?_, lt_trans hx h2, ?_, ?_⟩
        · rw [heq, h1]
          omega
        · intro j hj
          cases j with
          | zero => exact le_of_lt h2
          | succ j2 => exact h3 j2 (by simpa using hj)
        · intro j hj hjk
          cases j with
          | zero => exact h2
          | succ j2 => exact h4 j2 (by simpa using hj) (by omega)
    · have heq : npArgmaxLoop i bi bv (x :: rest) = npArgmaxLoop (i + 1) bi bv rest := by
        show (if bv < x then npArgmaxLoop (i + 1) i x rest
          else npArgmaxLoop (i + 1) bi bv rest) = npArgmaxLoop (i + 1) bi bv rest
        rw [if_neg hx]
      push_neg at hx
      rcases ih (i + 1) bi bv with ⟨h1, h2⟩ | ⟨k, hk, h1, h2, h3, h4⟩
      · left
        refine ⟨by rw [heq, h1], ?_⟩
        intro j hj
        cases j with
        | zero => exact hx
        | succ j2 => exact h2 j2 (by simpa using hj)
      · right
        refine ⟨k + 1, by simpa using hk, ?_, h2, ?_, ?_⟩
        · rw [heq, h1]
          omega
        · intro j hj
          cases j with
          | zero => exact le_of_lt (lt_of_le_of_lt hx h2)
          | succ j2 => exact h3 j2 (by simpa using hj)
        · intro j hj hjk
          cases j with
          | zero => exact lt_of_le_of_lt hx h2
          | succ j2 => exact h4 j2 (by simpa using hj) (by omega)

/-- C6: on a non-empty candidate list, `_select_best_route` returns the
candidate whose composite score `0.7·(total_safety/(points·100)) +
0.3·max(0, 1 − time/60)` is maximal, and on ties the first such
candidate in input order (every earlier candidate scores strictly
less). -/
theorem selectBestRoute_spec :
    ∀ (routes : List OptimizedRoute), routes ≠ [] →
      ∃ i, ∃ hi : i < routes.length,
        selectBestRoute routes = some (routes.get ⟨i, hi⟩) ∧
        (∀ j (hj : j < routes.length),
          compositeScore (routes.get ⟨j, hj⟩) ≤ compositeScore (routes.get ⟨i, hi⟩)) ∧
        (∀ j (hj : j < routes.length), j < i →
          compositeScore (routes.get ⟨j, hj⟩) < compositeScore (routes.get ⟨i, hi⟩)) := by
  intro routes hne
  rcases routes with _ | ⟨r, rs⟩
  · exact absurd rfl hne
  · have hsel : selectBestRoute (r :: rs) =
        (r :: rs).get? (npArgmaxLoop 1 0 (compositeScore r) (rs.map compositeScore)) := by
      unfold selectBestRoute npArgmax
      rw [if_neg (by simp)]
      simp only [List.map_cons]
    rcases npArgmaxLoop_spec (rs.map compositeScore) 1 0 (compositeScore r) with
      ⟨h1, h2⟩ | ⟨k, hk, h1, h2, h3, h4⟩
    · refine ⟨0, by simp, ?_, ?_, ?_⟩
      · rw [hsel, h1]
        rfl
      · intro j hj
        cases j with
        | zero => exact le_refl _
        | succ j2 =>
          have hj2 : j2 < rs.length := by simpa using hj
          have := h2 j2 (by simpa using hj2)
          rwa [listGetMap compositeScore rs j2 hj2] at this
      · intro j hj hj0
        exact absurd hj0 (by omega)
    · have hk2 : k < rs.length := by simpa using hk
      refine ⟨k + 1, by simpa using hk2, ?_, ?_, ?_⟩
      · rw [hsel, h1, Nat.add_comm 1 k, List.get?_cons_succ]
        rw [List.get?_eq_get hk2]
        rfl
      · intro j hj
        have hkv := listGetMap compositeScore rs k hk2 hk
        cases j with
        | zero =>
          have := le_of_lt h2
          rw [hkv] at this
          exact this
        | succ j2 =>
          have hj2 : j2 < rs.length := by simpa using hj
          have := h3 j2 (by simpa using hj2)
          rw [hkv, listGetMap compositeScore rs j2 hj2] at this
          exact this
      · intro j hj hjk
        have hkv := listGetMap compositeScore rs k hk2 hk
        cases j with
        | zero =>
          have := h2
          rw [hkv] at this
          exact this
        | succ j2 =>
          have hj2 : j2 < rs.length := by simpa using hj
          have := h4 j2 (by simpa using hj2) (by omega)
          rw [hkv, listGetMap compositeScore rs j2 hj2] at this
          exact this

/-- C6 witness data: a candidate with the higher total safety score but 80
minutes of travel time (composite 0.63). -/
noncomputable def candidateSlow : OptimizedRoute :=
  ⟨[⟨0, 0, 90, 0, 40⟩, ⟨0, 0, 90, 40, 40⟩], 180, 80, 0.9⟩

/-- C6 witness data: a candidate with a lower total safety score but 20
minutes of travel time (composite 0.69). -/
noncomputable def candidateFast : OptimizedRoute :=
  ⟨[⟨0, 0, 70, 0, 10⟩, ⟨0, 0, 70, 10, 10⟩], 140, 20, 0.7⟩

/-- C6 witness: between a safer-but-80-minute candidate and a
less-safe-but-20-minute candidate, the 0.7/0.3 composite picks the
second, not simply the higher total safety. -/
theorem selectBestRoute_spec_witness :
    selectBestRoute [candidateSlow, candidateFast] = some candidateFast ∧
    compositeScore candidateSlow < compositeScore candidateFast := by
  have hA : compositeScore candidateSlow = 0.63 := by
    unfold compositeScore candidateSlow
    rw [max_eq_left (by norm_num : (1 : ℝ) - 80 / 60 ≤ 0)]
    norm_num
  have hB : compositeScore candidateFast = 0.69 := by
    unfold compositeScore candidateFast
    rw [max_eq_right (by norm_num : (0 : ℝ) ≤ 1 - 20 / 60)]
    norm_num
  have hlt : compositeScore candidateSlow < compositeScore candidateFast := by
    rw [hA, hB]
    norm_num
  obtain ⟨i, hi, hsel, hmax, hfirst⟩ :=
    selectBestRoute_spec [candidateSlow, candidateFast] (by simp)
  have hi2 : i = 0 ∨ i = 1 := by
    simp only [List.length_cons, List.length_nil] at hi
    omega
  rcases hi2 with h0 | h1
  · exfalso
    subst h0
    have hcon := hmax 1 (by simp)
    exact absurd hcon (not_le.mpr hlt)
  · subst h1
    exact ⟨hsel, hlt⟩

lemma optimizeRoute_of_alternatives_ne_nil (model : Option (ℝ → ℝ → ℝ → ℝ))
    (hasApiKey : Bool) (outcome : DirectionsOutcome)
    (s_lat s_lng e_lat e_lng departure now : ℝ) (maxAlt : ℕ)
    (h : getRouteAlternatives hasApiKey outcome s_lat s_lng e_lat e_lng maxAlt ≠ []) :
    optimizeRouteWithSafetyScoring model hasApiKey outcome s_lat s_lng e_lat e_lng
        departure now maxAlt =
      (selectBestRoute ((getRouteAlternatives hasApiKey outcome s_lat s_lng e_lat
        e_lng maxAlt).map (calculateRouteSafetyScores model departure))).getD
          (createFallbackRoute s_lat s_lng e_lat e_lng now) := by
  show (if getRouteAlternatives hasApiKey outcome s_lat s_lng e_lat e_lng maxAlt = []
    then createFallbackRoute s_lat s_lng e_lat e_lng now
    else (selectBestRoute ((getRouteAlternatives hasApiKey outcome s_lat s_lng e_lat
      e_lng maxAlt).map (calculateRouteSafetyScores model departure))).getD
        (createFallbackRoute s_lat s_lng e_lat e_lng now)) = _
  rw [if_neg h]

lemma selectBestRoute_singleton (r : OptimizedRoute) : selectBestRoute [r] = some r := by
  unfold selectBestRoute npArgmax
  rw [if_neg (by simp)]
  simp only [List.map_cons, List.map_nil]
  rfl

/-- C5 (amended): when the alternatives list is empty — which happens
exactly for an OK directions response whose (truncated) route list is
empty — the optimizer returns the fallback route, whose two endpoints
both carry the default score 50 and whose total travel time is exactly
30 minutes.  (On a collaborator failure or non-OK status the code
instead synthesizes mock geometry and scores it; see the
counterexample.) -/
theorem optimizeRoute_fallback_on_empty :
    ∀ (model : Option (ℝ → ℝ → ℝ → ℝ)) (routes : List (List RouteStep))
      (s_lat s_lng e_lat e_lng departure now : ℝ) (maxAlt : ℕ),
      routes.take maxAlt = [] →
        optimizeRouteWithSafetyScoring model true (.ok true routes)
            s_lat s_lng e_lat e_lng departure now maxAlt =
          createFallbackRoute s_lat s_lng e_lat e_lng now ∧
        (createFallbackRoute s_lat s_lng e_lat e_lng now).total_travel_time = 30 ∧
        ((createFallbackRoute s_lat s_lng e_lat e_lng now).points.map
          RoutePoint.safety_score) = [50, 50] := by
  intro model routes s_lat s_lng e_lat e_lng departure now maxAlt htake
  refine ⟨?_, rfl, rfl⟩
  show (if routes.take maxAlt = []
    then createFallbackRoute s_lat s_lng e_lat e_lng now
    else (selectBestRoute ((routes.take maxAlt).map
      (calculateRouteSafetyScores model departure))).getD
        (createFallbackRoute s_lat s_lng e_lat e_lng now)) =
    createFallbackRoute s_lat s_lng e_lat e_lng now
  rw [if_pos htake]

/-- C5 witness: an OK response with an empty route list yields the
fallback route. -/
theorem optimizeRoute_fallback_on_empty_witness :
    optimizeRouteWithSafetyScoring none true (.ok true []) 0 0 1 1 0 0 3 =
      createFallbackRoute 0 0 1 1 0 ∧
    (createFallbackRoute 0 0 1 1 0).total_travel_time = 30 ∧
    ((createFallbackRoute 0 0 1 1 0).points.map RoutePoint.safety_score) = [50, 50] := by
  exact optimizeRoute_fallback_on_empty none [] 0 0 1 1 0 0 3 rfl

/-- C5 counterexample: on a directions-collaborator failure with a
predictor reporting 80 everywhere, the optimizer does NOT return the
fallback route: it scores the synthesized mock geometry with the
predictor, so the returned route's first point carries score 80, not the
fixed default 50. -/
theorem optimizeRoute_fallback_counterexample :
    ((optimizeRouteWithSafetyScoring (some (fun _ _ _ => 80)) true .err 0 0 5 5 0 0
      3).points.map RoutePoint.safety_score).head? = some 80 ∧ (80 : ℝ) ≠ 50 := by
  constructor
  · rw [optimizeRoute_of_alternatives_ne_nil (some (fun _ _ _ => 80)) true .err
      0 0 5 5 0 0 3 (by simp [getRouteAlternatives, getMockRoutes])]
    have halts : getRouteAlternatives true .err 0 0 5 5 3 = getMockRoutes 0 0 5 5 := rfl
    rw [halts]
    unfold getMockRoutes
    simp only [List.map_cons, List.map_nil]
    rw [selectBestRoute_singleton]
    rfl
  · norm_num

/-- The spec's confidence formula `min(1, (max(0, 1 − σ/50) + μ/100)/2)`
as a function of the mean and standard deviation. -/
noncomputable def confFormula (mu sigma : ℝ) : ℝ :=
  min 1 ((max 0 (1 - sigma / 50) + mu / 100) / 2)

/-- C7: for non-empty score lists the computed route confidence equals
`confFormula` of the scores' mean and standard deviation; `confFormula`
is antitone in σ for fixed μ (so the confidence does not decrease as σ
decreases toward 0); and a route scored by a constant-`S` predictor has
`total_safety_score = N·S` for its `N` points. -/
theorem routeConfidence_formula_monotone_total :
    ∀ (scores : List ℝ) (mu sigma1 sigma2 S departure : ℝ) (steps : List RouteStep),
      (scores ≠ [] →
        calculateRouteConfidence scores = confFormula (npMean scores) (npStd scores)) ∧
      (sigma1 ≤ sigma2 → confFormula mu sigma2 ≤ confFormula mu sigma1) ∧
      (calculateRouteSafetyScores (some (fun _ _ _ => S)) departure steps).total_safety_score =
        steps.length * S := by
  intro scores mu sigma1 sigma2 S departure steps
  refine ⟨?_, ?_, ?_⟩
  · intro hne
    unfold calculateRouteConfidence confFormula
    rw [if_neg hne]
  · intro hs
    unfold confFormula
    have hmax : max 0 (1 - sigma2 / 50) ≤ max 0 (1 - sigma1 / 50) :=
      max_le_max (le_refl 0) (by linarith)
    exact min_le_min (le_refl 1) (by linarith)
  · have key : ∀ (t : ℝ) (l : List RouteStep),
        ((routePointsLoop (some (fun _ _ _ => S)) t l).map RoutePoint.safety_score).sum =
          l.length * S := by
      intro t l
      induction l generalizing t with
      | nil => simp [routePointsLoop]
      | cons st rest ih =>
        simp only [routePointsLoop, List.map_cons, List.sum_cons, List.length_cons,
          optimizerPredict, ih]
        push_cast
        ring
    exact key departure steps

/-- C7 witness: two identical scores 50 (σ = 0), the σ pair (0, 1) at
μ = 50, and a 2-step route under a constant-60 predictor. -/
theorem routeConfidence_formula_monotone_total_witness :
    ([50, 50] : List ℝ) ≠ [] ∧
    calculateRouteConfidence [50, 50] = confFormula (npMean [50, 50]) (npStd [50, 50]) ∧
    ((0 : ℝ) ≤ 1 ∧ confFormula 50 1 ≤ confFormula 50 0) ∧
    (calculateRouteSafetyScores (some (fun _ _ _ => 60)) 0
      [⟨0, 0, 300⟩, ⟨1, 1, 300⟩]).total_safety_score = 2 * 60 := by
  refine ⟨by simp, ?_, ⟨by norm_num, ?_⟩, ?_⟩
  · exact (routeConfidence_formula_monotone_total [50, 50] 0 0 0 0 0 []).1 (by simp)
  · exact (routeConfidence_formula_monotone_total [] 50 0 1 0 0 []).2.1 (by norm_num)
  · have h := (routeConfidence_formula_monotone_total [] 0 0 0 60 0
      [⟨0, 0, 300⟩, ⟨1, 1, 300⟩]).2.2
    simpa using h
